import Mathlib

/-
Verification of the ready-item (AnyExecutable) core of this rclcpp fork,
shallowly embedded from src/rclcpp/include/rclcpp/any_executable.hpp.

The union ExecutablePtr is modelled at the level of its observable storage:
all six member structs share a leading ExType field at offset 0 (the common
initial sequence), and the five entity members place their shared_ptr at the
same offset after it.  A state is therefore a tag byte plus the contents of
the shared-pointer slot.  Shared-ownership counts are modelled by an explicit
heap from entity ids to counts.  Layout assumptions that the source relies on
(LP64, little-endian, pointers written at offset 0 overlapping the tag byte)
are recorded where they matter.
-/

namespace Rclcpp

/-- Enum ExType of any_executable.hpp lines 33-40, with the underlying
uint8_t values 0..5 in declaration order. -/
inductive ExType where
  | EmptyExec
  | SubscriptionExec
  | TimerExec
  | ServiceExec
  | ClientExec
  | WaitExec
  deriving DecidableEq, Repr

/-- The numeric value of the uint8_t enumerator. -/
def ExType.toByte : ExType → Nat
  | .EmptyExec => 0
  | .SubscriptionExec => 1
  | .TimerExec => 2
  | .ServiceExec => 3
  | .ClientExec => 4
  | .WaitExec => 5

/-- The six member fields of the union ExecutablePtr (lines 45-50). -/
inductive Member where
  | empty
  | subscription
  | timer
  | service
  | client
  | waitable
  deriving DecidableEq, Repr

/-- The union member that a given tag designates. -/
def ExType.member : ExType → Member
  | .EmptyExec => .empty
  | .SubscriptionExec => .subscription
  | .TimerExec => .timer
  | .ServiceExec => .service
  | .ClientExec => .client
  | .WaitExec => .waitable

/-- Whether a member struct contains a shared_ptr (every member except
empty_type, which holds an int). -/
def Member.hasSharedPtr : Member → Bool
  | .empty => false
  | _ => true

/-- Contents of the shared-pointer slot of the union storage (the bytes where
each entity member keeps its SharedPtr).  `sptr i` is a shared_ptr sharing
ownership of the entity with id `i`; `uninit` stands for bytes that were never
written (the default and empty states never touch this slot, and the broken
copy branches leave it untouched as well). -/
inductive PtrSlot where
  | uninit
  | sptr (id : Nat)
  deriving DecidableEq, Repr

/-- Shared-ownership counts: entity id to use_count. -/
def RefHeap : Type := Nat → Nat

def RefHeap.inc (h : RefHeap) (i : Nat) : RefHeap :=
  fun j => if j = i then h j + 1 else h j

def RefHeap.dec (h : RefHeap) (i : Nat) : RefHeap :=
  fun j => if j = i then h j - 1 else h j

/-- Heap effect of copy-constructing the shared_ptr held in a slot. -/
def PtrSlot.copyInto : PtrSlot → RefHeap → RefHeap
  | .sptr i, h => h.inc i
  | .uninit, h => h

/-- Heap effect of destroying the shared_ptr held in a slot.  Destroying
indeterminate bytes is undefined behaviour in the source; it is modelled as
releasing nothing. -/
def PtrSlot.destroy : PtrSlot → RefHeap → RefHeap
  | .sptr i, h => h.dec i
  | .uninit, h => h

/-- Observable storage of union ExecutablePtr (lines 43-100): the shared
leading tag byte and the shared-pointer slot. -/
structure ExecutablePtr where
  tagByte : Nat
  slot : PtrSlot
  deriving DecidableEq, Repr

namespace ExecutablePtr

/-- Default constructor (line 52): initialises empty{EmptyExec, 0}.  The int
field lives in the first word; the shared-pointer slot stays uninitialised. -/
def mkEmpty : ExecutablePtr := ⟨ExType.EmptyExec.toByte, .uninit⟩

/-- Constructor from a SubscriptionBase::SharedPtr managing entity `i`
(line 53): initialises subscription{SubscriptionExec, sub}. -/
def mkSubscription (i : Nat) : ExecutablePtr := ⟨ExType.SubscriptionExec.toByte, .sptr i⟩

/-- Constructor from a TimerBase::SharedPtr (line 54). -/
def mkTimer (i : Nat) : ExecutablePtr := ⟨ExType.TimerExec.toByte, .sptr i⟩

/-- Constructor from a ServiceBase::SharedPtr (line 55). -/
def mkService (i : Nat) : ExecutablePtr := ⟨ExType.ServiceExec.toByte, .sptr i⟩

/-- Constructor from a ClientBase::SharedPtr (line 56). -/
def mkClient (i : Nat) : ExecutablePtr := ⟨ExType.ClientExec.toByte, .sptr i⟩

/-- Constructor from a Waitable::SharedPtr (line 57). -/
def mkWaitable (i : Nat) : ExecutablePtr := ⟨ExType.WaitExec.toByte, .sptr i⟩

/-- Copy constructor ExecutablePtr(ExecutablePtr const&) (lines 58-82),
a switch on other.subscription.type (a read of the shared tag byte).

The Subscription, Timer, Service and Client branches read
`new(&member) auto(&other.member)`: the deduced type is a POINTER to the
member, so an 8-byte pointer value is placement-constructed at offset 0 of
the fresh storage.  On a little-endian LP64 machine this overwrites the tag
byte with the low byte of the address of `other` (every union member sits at
offset 0 of it), leaves the shared-pointer slot uninitialised, and copies no
shared_ptr, so no ownership count changes.  The Wait branch reads
`auto(other.waitable)` (no address-of) and is a genuine member copy, as is
the Empty branch.  When the source tag matches no case the switch falls
through and the fresh storage stays indeterminate; `junk` stands for the
resulting tag byte.  `otherAddr` is the machine address of `other`.
Confirmed against g++ on x86-64: the copy of a subscription-tagged value has
tag byte equal to the source address low byte and an unchanged use_count. -/
def copyCtor (other : ExecutablePtr) (otherAddr junk : Nat) (heap : RefHeap) :
    ExecutablePtr × RefHeap :=
  if other.tagByte = ExType.SubscriptionExec.toByte then
    (⟨otherAddr % 256, .uninit⟩, heap)
  else if other.tagByte = ExType.TimerExec.toByte then
    (⟨otherAddr % 256, .uninit⟩, heap)
  else if other.tagByte = ExType.ServiceExec.toByte then
    (⟨otherAddr % 256, .uninit⟩, heap)
  else if other.tagByte = ExType.ClientExec.toByte then
    (⟨otherAddr % 256, .uninit⟩, heap)
  else if other.tagByte = ExType.WaitExec.toByte then
    (⟨ExType.WaitExec.toByte, other.slot⟩, other.slot.copyInto heap)
  else if other.tagByte = ExType.EmptyExec.toByte then
    (⟨ExType.EmptyExec.toByte, .uninit⟩, heap)
  else
    (⟨junk, .uninit⟩, heap)

/-- Destructor ~ExecutablePtr (lines 84-99): an if-chain that reads the
shared tag byte through each member view in turn and runs exactly one member
destructor, falling back to empty_type.  This function returns the member
whose destructor runs. -/
def dtorMember (e : ExecutablePtr) : Member :=
  if e.tagByte = ExType.SubscriptionExec.toByte then .subscription
  else if e.tagByte = ExType.TimerExec.toByte then .timer
  else if e.tagByte = ExType.ServiceExec.toByte then .service
  else if e.tagByte = ExType.ClientExec.toByte then .client
  else if e.tagByte = ExType.WaitExec.toByte then .waitable
  else .empty

/-- Heap effect of the destructor: destroying an entity member releases the
shared_ptr held in the slot; destroying empty_type releases nothing. -/
def dtorEffect (e : ExecutablePtr) (heap : RefHeap) : RefHeap :=
  if e.dtorMember.hasSharedPtr then e.slot.destroy heap else heap

end ExecutablePtr

/-- struct TaggedExecutable (lines 42-110): a transparent wrapper around the
union.  Its constructors forward to the union constructors and its copy
constructor and destructor are defaulted, deferring to the union. -/
structure TaggedExecutable where
  ptr : ExecutablePtr
  deriving DecidableEq, Repr

/-- struct AnyExecutable (lines 112-185).  The C++ member `_executable` is
private with no constructor from entity handles; the Lean structure exposes
it so that states the executor produces elsewhere can be written down. -/
structure AnyExecutable where
  callback_group : Option Nat
  node_base : Option Nat
  data : Option Nat
  executableField : TaggedExecutable
  deriving DecidableEq, Repr

namespace AnyExecutable

/-- Default-constructed AnyExecutable: the out-of-line constructor leaves the
shared_ptr members null and `_executable` default-initialised to the empty
tagged state (TaggedExecutable() at line 102, ExecutablePtr() at line 52). -/
def mkDefault : AnyExecutable := ⟨none, none, none, ⟨ExecutablePtr.mkEmpty⟩⟩

/-- is_empty (lines 121-124): reads the tag byte through the empty view. -/
def is_empty (a : AnyExecutable) : Bool :=
  a.executableField.ptr.tagByte = ExType.EmptyExec.toByte

/-- is_subscription (lines 126-129). -/
def is_subscription (a : AnyExecutable) : Bool :=
  a.executableField.ptr.tagByte = ExType.SubscriptionExec.toByte

/-- is_timer (lines 131-134). -/
def is_timer (a : AnyExecutable) : Bool :=
  a.executableField.ptr.tagByte = ExType.TimerExec.toByte

/-- is_service (lines 136-139). -/
def is_service (a : AnyExecutable) : Bool :=
  a.executableField.ptr.tagByte = ExType.ServiceExec.toByte

/-- is_client (lines 141-144). -/
def is_client (a : AnyExecutable) : Bool :=
  a.executableField.ptr.tagByte = ExType.ClientExec.toByte

/-- is_waitable (lines 146-149). -/
def is_waitable (a : AnyExecutable) : Bool :=
  a.executableField.ptr.tagByte = ExType.WaitExec.toByte

/-- How many of the six kind predicates hold. -/
def trueKindCount (a : AnyExecutable) : Nat :=
  (if a.is_empty then 1 else 0) + (if a.is_subscription then 1 else 0) +
  (if a.is_timer then 1 else 0) + (if a.is_service then 1 else 0) +
  (if a.is_client then 1 else 0) + (if a.is_waitable then 1 else 0)

/-- get_subscription (lines 152-154): returns _executable.ptr.subscription.ptr
with no check of the tag whatsoever, that is, the bytes of the
shared-pointer slot read through the subscription view. -/
def get_subscription (a : AnyExecutable) : PtrSlot :=
  a.executableField.ptr.slot

/-- get_timer (lines 156-158): the same slot read through the timer view. -/
def get_timer (a : AnyExecutable) : PtrSlot :=
  a.executableField.ptr.slot

/-- get_service (lines 160-162). -/
def get_service (a : AnyExecutable) : PtrSlot :=
  a.executableField.ptr.slot

/-- get_client (lines 164-166). -/
def get_client (a : AnyExecutable) : PtrSlot :=
  a.executableField.ptr.slot

/-- get_waitable (lines 168-170). -/
def get_waitable (a : AnyExecutable) : PtrSlot :=
  a.executableField.ptr.slot

end AnyExecutable

/-- Error taxonomy of the spec for typed access. -/
inductive AccessError where
  | typeMismatch
  deriving DecidableEq, Repr

/-- Modelled from the spec: the contract of as<Kind>() in section 4.1 —
returns the typed handle if kind() equals Kind, else signals a TypeMismatch
error.  Stated here only to compare the spec contract against the accessors
the source actually has (get_subscription etc. perform no tag check). -/
def asSpec (k : ExType) (a : AnyExecutable) : Except AccessError PtrSlot :=
  if a.executableField.ptr.tagByte = k.toByte then
    Except.ok a.executableField.ptr.slot
  else
    Except.error AccessError.typeMismatch

/-- set_executable (lines 173-175) assigns
`_executable = TaggedExecutable(ptr)`.  As written this calls the copy or
move assignment operator of TaggedExecutable, both of which are implicitly
deleted: union ExecutablePtr has variant members containing shared_ptr
(non-trivial assignment) and provides no user assignment operator, so the
assignment is ill-formed and the translation unit does not compile
(verified with g++ -std=c++17 on a faithful reduction of the header).
This definition models the assignment the body evidently intends: replace
the payload with a subscription-tagged one holding the given handle and
leave every other field of AnyExecutable unchanged. -/
def AnyExecutable.set_executable_intended (a : AnyExecutable) (i : Nat) : AnyExecutable :=
  { a with executableField := ⟨ExecutablePtr.mkSubscription i⟩ }

/-
Executor dispatch loop and callback-group gating.  The executor sources are
not part of this excerpt, so the loop is modelled from the spec (sections
4.2, 4.3, 4.4 and 5): a wait-set builder that excludes the members of a busy
MutuallyExclusive group, per-group selection that dispatches every ready
member of a Reentrant group but at most the oldest-registered ready member
of a MutuallyExclusive group, and deferral of the rest to the next cycle.
-/

/-- Modelled from the spec: concurrency mode of a CallbackGroup (section
4.2). -/
inductive GroupMode where
  | Reentrant
  | MutuallyExclusive
  deriving DecidableEq, Repr

/-- Modelled from the spec: one callback group with its gating state and its
registered members in registration order, oldest first (sections 4.2, 4.4). -/
structure GroupState where
  mode : GroupMode
  busy : Bool
  members : List Nat
  deriving DecidableEq, Repr

/-- Modelled from the spec: state of the single-threaded executor between
cycles — the registered groups (keyed by group id) and the set of entities
currently ready (section 4.4). -/
structure ExecModel where
  groups : List (Nat × GroupState)
  ready : List Nat
  deriving DecidableEq, Repr

namespace GroupState

/-- The ready members of a group, in registration order. -/
def readyMembers (gs : GroupState) (ready : List Nat) : List Nat :=
  gs.members.filter (fun e => ready.contains e)

/-- Modelled from the spec: whether the wait-set builder offers the members
of this group this cycle — Reentrant always, MutuallyExclusive only when not
busy (section 4.3). -/
def offered (gs : GroupState) : Bool :=
  gs.mode == GroupMode.Reentrant || !gs.busy

/-- Modelled from the spec: the members of this group selected for dispatch
this cycle — every ready member of a Reentrant group; for a MutuallyExclusive
group, nothing while busy, otherwise exactly the oldest-registered ready
member, the rest deferred (sections 4.3 and 4.4 step 3). -/
def selection (gs : GroupState) (ready : List Nat) : List Nat :=
  if gs.mode == GroupMode.Reentrant then gs.readyMembers ready
  else if gs.busy then []
  else (gs.readyMembers ready).take 1

end GroupState

namespace ExecModel

/-- Everything dispatched in one cycle, in group order. -/
def cycleDispatch (s : ExecModel) : List Nat :=
  (s.groups.map (fun p => p.2.selection s.ready)).flatten

/-- What the cycle dispatches for one particular group. -/
def dispatchFor (s : ExecModel) (g : Nat) : List Nat :=
  match s.groups.lookup g with
  | some gs => gs.selection s.ready
  | none => []

/-- Modelled from the spec: one full single-threaded cycle — dispatch the
selected items (each callback runs to completion before the loop continues,
so the busy flag of a group is set and cleared within the cycle and group
state is unchanged across cycles), consume the readiness of the dispatched
entities, and keep every deferred entity ready (section 4.4, section 5
single-threaded mode). -/
def cycle (s : ExecModel) : ExecModel :=
  { s with ready := s.ready.filter (fun e => !(s.cycleDispatch.contains e)) }

end ExecModel

/-
Multi-threaded dispatch, modelled from the spec as a small-step transition
system (sections 4.2, 4.4 step 4, section 5): the loop thread collects ready
items (only from groups the wait set offers) and hands selected items to
workers; a dispatch marks a MutuallyExclusive group busy atomically with the
start of execution, and completion clears it.  Ready items and collected
pending items are (entity, group) pairs.
-/

/-- Modelled from the spec: a callback group as the multi-threaded model
sees it — mode plus busy flag (section 4.2). -/
structure MTGroup where
  mode : GroupMode
  busy : Bool
  deriving DecidableEq, Repr

/-- Modelled from the spec: a snapshot of the multi-threaded executor —
group table, ready items not yet collected, collected items pending
dispatch, and items currently executing on workers. -/
structure MTState where
  groups : List (Nat × MTGroup)
  ready : List (Nat × Nat)
  pending : List (Nat × Nat)
  running : List (Nat × Nat)
  deriving DecidableEq, Repr

namespace MTState

/-- Modelled from the spec: whether the wait-set builder offers members of
group g — Reentrant always, MutuallyExclusive only when not busy (section
4.3). -/
def offeredMT (s : MTState) (g : Nat) : Bool :=
  match s.groups.lookup g with
  | some gr => gr.mode == GroupMode.Reentrant || !gr.busy
  | none => false

/-- Modelled from the spec: a collected item may be handed to a worker only
if its MutuallyExclusive group is not busy — ready items already produced
for the cycle are not dispatched while the prior execution runs (section
4.2). -/
def canDispatch (s : MTState) (e g : Nat) : Bool :=
  s.pending.contains (e, g) &&
    (match s.groups.lookup g with
     | some gr => gr.mode == GroupMode.Reentrant || !gr.busy
     | none => false)

/-- Set the busy flag of group g; a no-op for a Reentrant group (section 4.4
step 4). -/
def busyUpdate (l : List (Nat × MTGroup)) (g : Nat) (b : Bool) :
    List (Nat × MTGroup) :=
  l.map fun p =>
    (p.1,
      if p.1 = g then
        ⟨p.2.mode, if p.2.mode = GroupMode.MutuallyExclusive then b else p.2.busy⟩
      else p.2)

/-- State after the loop thread collects one offered ready item. -/
def collectState (s : MTState) (e g : Nat) : MTState :=
  { s with ready := s.ready.erase (e, g), pending := s.pending ++ [(e, g)] }

/-- State after one pending item is handed to a worker: the group is marked
busy atomically with the start of execution. -/
def dispatchState (s : MTState) (e g : Nat) : MTState :=
  { s with pending := s.pending.erase (e, g),
           running := s.running ++ [(e, g)],
           groups := busyUpdate s.groups g true }

/-- State after a worker finishes (success or callback failure): the busy
flag is released. -/
def finishState (s : MTState) (e g : Nat) : MTState :=
  { s with running := s.running.erase (e, g),
           groups := busyUpdate s.groups g false }

/-- How many members of group g are executing right now. -/
def runCount (s : MTState) (g : Nat) : Nat :=
  s.running.countP (fun p => p.2 == g)

/-- Modelled from the spec: a valid starting state — no callback executing,
nothing collected yet, every busy flag clear (the loop begins Idle, section
4.4). -/
def initOk (s : MTState) : Bool :=
  s.running.isEmpty && s.pending.isEmpty && s.groups.all (fun p => !p.2.busy)

end MTState

/-- Modelled from the spec: interleaved steps of the loop thread and the
workers (sections 4.4 and 5).  Collection is gated by the wait set, dispatch
by the busy flag, and completion releases the busy flag. -/
inductive MTStep : MTState → MTState → Prop where
  | collect (s : MTState) (e g : Nat) (hr : (e, g) ∈ s.ready)
      (ho : s.offeredMT g = true) : MTStep s (s.collectState e g)
  | dispatch (s : MTState) (e g : Nat) (hc : s.canDispatch e g = true) :
      MTStep s (s.dispatchState e g)
  | finish (s : MTState) (e g : Nat) (hr : (e, g) ∈ s.running) :
      MTStep s (s.finishState e g)

/-- Reachability along executor steps. -/
abbrev MTReach : MTState → MTState → Prop := Relation.ReflTransGen MTStep

/-- The gating invariant of section 4.2: a MutuallyExclusive group has at
most one member executing, and none at all while its busy flag is clear. -/
def MTInv (s : MTState) : Prop :=
  ∀ g gr, s.groups.lookup g = some gr →
    gr.mode = GroupMode.MutuallyExclusive →
    s.runCount g ≤ 1 ∧ (gr.busy = false → s.runCount g = 0)

/-- A concrete starting state for the multi-threaded model: one
MutuallyExclusive group (id 1, not busy) with entity 10 ready. -/
def c7s0 : MTState :=
  ⟨[(1, ⟨GroupMode.MutuallyExclusive, false⟩)], [(10, 1)], [], []⟩

/-- c7s0 after the loop collects the ready item of entity 10. -/
def c7s1 : MTState := c7s0.collectState 10 1

/-- c7s1 after entity 10 is handed to a worker (group 1 becomes busy). -/
def c7s2 : MTState := c7s1.dispatchState 10 1

/-- A concrete model for the single-threaded cycle: one MutuallyExclusive
group (id 1) with members 10 and 20 registered in that order, both ready. -/
def c8s : ExecModel :=
  ⟨[(1, ⟨GroupMode.MutuallyExclusive, false, [10, 20]⟩)], [10, 20]⟩

/-- Heap effect of releasing an optional shared handle. -/
def releaseOpt : Option Nat → RefHeap → RefHeap
  | some i, h => h.dec i
  | none, h => h

/-- Destruction of AnyExecutable: the defaulted member-wise part releases the
callback_group, node_base and data references (lines 177-184), and the
user-provided union destructor handles the payload. -/
def AnyExecutable.dtorEffect (a : AnyExecutable) (heap : RefHeap) : RefHeap :=
  releaseOpt a.callback_group
    (releaseOpt a.node_base
      (releaseOpt a.data (a.executableField.ptr.dtorEffect heap)))

/-- A concrete heap in which every entity has use_count 2 (one external
handle plus the handle inside a ready item). -/
def heapTwo : RefHeap := fun _ => 2

/-
Claim theorems.
-/

/-- C1: the claim says copy construction preserves the active tag and
increments the shared-ownership count of exactly the active payload, for all
five entity kinds.  Evaluating the embedded copy constructor on a
subscription-tagged item (entity 7, use_count 2, source object at an address
with low byte 16) shows the opposite: the copy has tag byte 16 instead of
SubscriptionExec and an uninitialised payload slot, the use_count stays 2,
and destroying the original then leaves the count at 1 with the copy holding
nothing, so the copies do not keep the payload alive.  By contrast the
Waitable branch of the same constructor behaves as the claim says: tag
preserved and count incremented to 3. -/
theorem C1_copy_ctor_eval :
    (ExecutablePtr.copyCtor (ExecutablePtr.mkSubscription 7) 16 0 heapTwo).1 =
      ⟨16, PtrSlot.uninit⟩ ∧
    (ExecutablePtr.copyCtor (ExecutablePtr.mkSubscription 7) 16 0 heapTwo).2 7 = 2 ∧
    (ExecutablePtr.dtorEffect (ExecutablePtr.mkSubscription 7)
      ((ExecutablePtr.copyCtor (ExecutablePtr.mkSubscription 7) 16 0 heapTwo).2)) 7 = 1 ∧
    (ExecutablePtr.copyCtor (ExecutablePtr.mkWaitable 7) 16 0 heapTwo).1 =
      ⟨ExType.WaitExec.toByte, PtrSlot.sptr 7⟩ ∧
    (ExecutablePtr.copyCtor (ExecutablePtr.mkWaitable 7) 16 0 heapTwo).2 7 = 3 := by
  decide

/-- C3: the claim says every reachable item satisfies exactly one of the six
kind predicates.  A copy of a subscription-tagged item (source at an address
with low byte 16) is reachable by construction-from-handle followed by copy
construction, and it satisfies none of the six predicates: its tag byte is
16, which no predicate matches. -/
theorem C3_copy_breaks_exactly_one_tag :
    AnyExecutable.trueKindCount
      ⟨none, none, none,
        ⟨(ExecutablePtr.copyCtor (ExecutablePtr.mkSubscription 7) 16 0 heapTwo).1⟩⟩ = 0 := by
  decide

/-- C2 counterexample: the claim says get_timer on a subscription-tagged item
signals a TypeMismatch error and never silently returns a handle.  On the
item built from subscription handle 7, get_timer silently returns that very
handle (the payload slot bytes read through the timer view), which differs
from what the spec contract asSpec requires there (a TypeMismatch error). -/
theorem C2_counterexample :
    (AnyExecutable.mk none none none ⟨ExecutablePtr.mkSubscription 7⟩).get_timer =
      PtrSlot.sptr 7 ∧
    asSpec ExType.TimerExec
      (AnyExecutable.mk none none none ⟨ExecutablePtr.mkSubscription 7⟩) =
      Except.error AccessError.typeMismatch ∧
    Except.ok
      ((AnyExecutable.mk none none none ⟨ExecutablePtr.mkSubscription 7⟩).get_timer) ≠
      asSpec ExType.TimerExec
        (AnyExecutable.mk none none none ⟨ExecutablePtr.mkSubscription 7⟩) := by
  refine ⟨rfl, rfl, ?_⟩
  intro h
  simp [asSpec, AnyExecutable.get_timer, ExecutablePtr.mkSubscription, ExType.toByte] at h

/-- C2 as amended: each typed accessor returns the payload-slot bytes
unconditionally, with no tag check and no error signal; when the active tag
matches the accessor this is exactly the held handle, and when it differs the
same stored bytes are returned silently. -/
theorem C2_amended_accessors_unchecked (a : AnyExecutable) (i : Nat)
    (g n d : Option Nat) :
    a.get_subscription = a.executableField.ptr.slot ∧
    a.get_timer = a.executableField.ptr.slot ∧
    a.get_service = a.executableField.ptr.slot ∧
    a.get_client = a.executableField.ptr.slot ∧
    a.get_waitable = a.executableField.ptr.slot ∧
    (AnyExecutable.mk g n d ⟨ExecutablePtr.mkSubscription i⟩).get_subscription =
      PtrSlot.sptr i ∧
    (AnyExecutable.mk g n d ⟨ExecutablePtr.mkTimer i⟩).get_timer = PtrSlot.sptr i ∧
    (AnyExecutable.mk g n d ⟨ExecutablePtr.mkService i⟩).get_service = PtrSlot.sptr i ∧
    (AnyExecutable.mk g n d ⟨ExecutablePtr.mkClient i⟩).get_client = PtrSlot.sptr i ∧
    (AnyExecutable.mk g n d ⟨ExecutablePtr.mkWaitable i⟩).get_waitable = PtrSlot.sptr i ∧
    (AnyExecutable.mk g n d ⟨ExecutablePtr.mkSubscription i⟩).get_timer =
      PtrSlot.sptr i :=
  ⟨rfl, rfl, rfl, rfl, rfl, rfl, rfl, rfl, rfl, rfl, rfl⟩

/-- C4: constructing from a handle of each of the five entity kinds sets the
tag to that constructor's kind and stores the given handle, the matching kind
predicate holds, and no other kind predicate does (the count of true
predicates is one). -/
theorem C4_from_handle_sets_tag_and_payload (i : Nat) (g n d : Option Nat) :
    (ExecutablePtr.mkSubscription i).tagByte = ExType.SubscriptionExec.toByte ∧
    (ExecutablePtr.mkSubscription i).slot = PtrSlot.sptr i ∧
    (AnyExecutable.mk g n d ⟨ExecutablePtr.mkSubscription i⟩).is_subscription = true ∧
    (AnyExecutable.mk g n d ⟨ExecutablePtr.mkSubscription i⟩).trueKindCount = 1 ∧
    (ExecutablePtr.mkTimer i).tagByte = ExType.TimerExec.toByte ∧
    (ExecutablePtr.mkTimer i).slot = PtrSlot.sptr i ∧
    (AnyExecutable.mk g n d ⟨ExecutablePtr.mkTimer i⟩).is_timer = true ∧
    (AnyExecutable.mk g n d ⟨ExecutablePtr.mkTimer i⟩).trueKindCount = 1 ∧
    (ExecutablePtr.mkService i).tagByte = ExType.ServiceExec.toByte ∧
    (ExecutablePtr.mkService i).slot = PtrSlot.sptr i ∧
    (AnyExecutable.mk g n d ⟨ExecutablePtr.mkService i⟩).is_service = true ∧
    (AnyExecutable.mk g n d ⟨ExecutablePtr.mkService i⟩).trueKindCount = 1 ∧
    (ExecutablePtr.mkClient i).tagByte = ExType.ClientExec.toByte ∧
    (ExecutablePtr.mkClient i).slot = PtrSlot.sptr i ∧
    (AnyExecutable.mk g n d ⟨ExecutablePtr.mkClient i⟩).is_client = true ∧
    (AnyExecutable.mk g n d ⟨ExecutablePtr.mkClient i⟩).trueKindCount = 1 ∧
    (ExecutablePtr.mkWaitable i).tagByte = ExType.WaitExec.toByte ∧
    (ExecutablePtr.mkWaitable i).slot = PtrSlot.sptr i ∧
    (AnyExecutable.mk g n d ⟨ExecutablePtr.mkWaitable i⟩).is_waitable = true ∧
    (AnyExecutable.mk g n d ⟨ExecutablePtr.mkWaitable i⟩).trueKindCount = 1 :=
  ⟨rfl, rfl, rfl, rfl, rfl, rfl, rfl, rfl, rfl, rfl,
   rfl, rfl, rfl, rfl, rfl, rfl, rfl, rfl, rfl, rfl⟩

/-- C5 counterexample: the claim says every typed accessor of a
default-constructed item returns TypeMismatch.  In fact is_empty holds but
get_subscription returns the uninitialised payload-slot bytes with no error
signal, differing from what the spec contract asSpec requires there. -/
theorem C5_counterexample :
    AnyExecutable.mkDefault.is_empty = true ∧
    AnyExecutable.mkDefault.get_subscription = PtrSlot.uninit ∧
    asSpec ExType.SubscriptionExec AnyExecutable.mkDefault =
      Except.error AccessError.typeMismatch ∧
    Except.ok AnyExecutable.mkDefault.get_subscription ≠
      asSpec ExType.SubscriptionExec AnyExecutable.mkDefault := by
  refine ⟨rfl, rfl, rfl, ?_⟩
  intro h
  simp [asSpec, AnyExecutable.get_subscription, AnyExecutable.mkDefault,
    ExecutablePtr.mkEmpty, ExType.toByte] at h

/-- C5 as amended: a default-constructed item has kind Empty (is_empty holds
and no other kind predicate does), and each typed accessor, rather than
returning TypeMismatch, silently returns the uninitialised payload-slot
bytes. -/
theorem C5_amended_default_state :
    AnyExecutable.mkDefault.is_empty = true ∧
    AnyExecutable.mkDefault.executableField.ptr.tagByte = ExType.EmptyExec.toByte ∧
    AnyExecutable.mkDefault.trueKindCount = 1 ∧
    AnyExecutable.mkDefault.get_subscription = PtrSlot.uninit ∧
    AnyExecutable.mkDefault.get_timer = PtrSlot.uninit ∧
    AnyExecutable.mkDefault.get_service = PtrSlot.uninit ∧
    AnyExecutable.mkDefault.get_client = PtrSlot.uninit ∧
    AnyExecutable.mkDefault.get_waitable = PtrSlot.uninit := by
  decide

/-- C6: for an item whose tag byte is that of kind t and whose payload slot
holds a shared handle to entity i, the destructor runs exactly the member
destructor that the active tag designates; the heap effect releases one
reference to i when t is an entity kind and nothing when t is Empty, and the
count of every other entity j is untouched.  The two closing conjuncts cover
the genuinely empty default state (only the trivial empty member is
destroyed, no count changes), and the release of the group and node
references by the member-wise AnyExecutable destruction. -/
theorem C6_dtor_releases_active_only (t : ExType) (e : ExecutablePtr)
    (i j : Nat) (heap : RefHeap) (h : e.tagByte = t.toByte)
    (hs : e.slot = PtrSlot.sptr i) (hj : j ≠ i) :
    e.dtorMember = t.member ∧
    e.dtorEffect heap i = (if t = ExType.EmptyExec then heap i else heap i - 1) ∧
    e.dtorEffect heap j = heap j ∧
    ExecutablePtr.mkEmpty.dtorMember = Member.empty ∧
    ExecutablePtr.mkEmpty.dtorEffect heap = heap ∧
    (AnyExecutable.mk (some 100) (some 101) (some 102)
      ⟨ExecutablePtr.mkTimer 3⟩).dtorEffect heapTwo 100 = 1 ∧
    (AnyExecutable.mk (some 100) (some 101) (some 102)
      ⟨ExecutablePtr.mkTimer 3⟩).dtorEffect heapTwo 101 = 1 ∧
    (AnyExecutable.mk (some 100) (some 101) (some 102)
      ⟨ExecutablePtr.mkTimer 3⟩).dtorEffect heapTwo 3 = 1 ∧
    (AnyExecutable.mk (some 100) (some 101) (some 102)
      ⟨ExecutablePtr.mkTimer 3⟩).dtorEffect heapTwo 9 = 2 := by
  refine ⟨?_, ?_, ?_, rfl, rfl, by decide, by decide, by decide, by decide⟩
  · cases t <;> simp_all [ExecutablePtr.dtorMember, ExType.toByte, ExType.member]
  · cases t <;>
      simp_all [ExecutablePtr.dtorMember, ExecutablePtr.dtorEffect, ExType.toByte,
        Member.hasSharedPtr, PtrSlot.destroy, RefHeap.dec]
  · cases t <;>
      simp_all [ExecutablePtr.dtorMember, ExecutablePtr.dtorEffect, ExType.toByte,
        Member.hasSharedPtr, PtrSlot.destroy, RefHeap.dec]

/-- Witness for C6 at kind Timer, entity 3, bystander entity 9. -/
theorem C6_witness :
    (ExecutablePtr.mkTimer 3).dtorMember = ExType.TimerExec.member ∧
    (ExecutablePtr.mkTimer 3).dtorEffect heapTwo 3 =
      (if ExType.TimerExec = ExType.EmptyExec then heapTwo 3 else heapTwo 3 - 1) ∧
    (ExecutablePtr.mkTimer 3).dtorEffect heapTwo 9 = heapTwo 9 ∧
    ExecutablePtr.mkEmpty.dtorMember = Member.empty ∧
    ExecutablePtr.mkEmpty.dtorEffect heapTwo = heapTwo ∧
    (AnyExecutable.mk (some 100) (some 101) (some 102)
      ⟨ExecutablePtr.mkTimer 3⟩).dtorEffect heapTwo 100 = 1 ∧
    (AnyExecutable.mk (some 100) (some 101) (some 102)
      ⟨ExecutablePtr.mkTimer 3⟩).dtorEffect heapTwo 101 = 1 ∧
    (AnyExecutable.mk (some 100) (some 101) (some 102)
      ⟨ExecutablePtr.mkTimer 3⟩).dtorEffect heapTwo 3 = 1 ∧
    (AnyExecutable.mk (some 100) (some 101) (some 102)
      ⟨ExecutablePtr.mkTimer 3⟩).dtorEffect heapTwo 9 = 2 :=
  C6_dtor_releases_active_only ExType.TimerExec (ExecutablePtr.mkTimer 3) 3 9
    heapTwo rfl rfl (by decide)

/-- C9: set_executable as written does not compile (the assignment
`_executable = TaggedExecutable(ptr)` uses the implicitly deleted assignment
operator of the union wrapper), so the claimed behaviour cannot be exhibited
by the code; evaluating the modelled intent of the body shows that behaviour
is what the member was meant to provide: after setting subscription handle
5 on a default item, is_subscription holds, get_subscription returns that
handle, and exactly one kind predicate is true. -/
theorem C9_set_executable_intended_eval :
    (AnyExecutable.mkDefault.set_executable_intended 5).is_subscription = true ∧
    (AnyExecutable.mkDefault.set_executable_intended 5).get_subscription =
      PtrSlot.sptr 5 ∧
    (AnyExecutable.mkDefault.set_executable_intended 5).trueKindCount = 1 := by
  decide

/-- C10: on the modelled intent of set_executable (the member as written is
ill-formed, see set_executable_intended), the call replaces only the payload
member: callback_group, node_base and data are unchanged for every prior
state and every handle. -/
theorem C10_set_executable_intended_frame (a : AnyExecutable) (i : Nat) :
    (a.set_executable_intended i).callback_group = a.callback_group ∧
    (a.set_executable_intended i).node_base = a.node_base ∧
    (a.set_executable_intended i).data = a.data ∧
    (a.set_executable_intended i).executableField =
      ⟨ExecutablePtr.mkSubscription i⟩ :=
  ⟨rfl, rfl, rfl, rfl⟩

end Rclcpp

namespace Rclcpp

theorem lookup_mem {α : Type} {l : List (Nat × α)} {g : Nat} {v : α}
    (h : l.lookup g = some v) : (g, v) ∈ l := by
  induction l with
  | nil => simp [List.lookup] at h
  | cons p t ih =>
    rw [List.lookup] at h
    cases hg : g == p.1 with
    | true =>
      rw [hg] at h
      simp only at h
      have hgp : g = p.1 := by simpa using hg
      cases h
      rw [hgp]
      exact List.mem_cons_self _ _
    | false =>
      rw [hg] at h
      simp only at h
      exact List.mem_cons_of_mem _ (ih h)

theorem lookup_of_mem_nodupKeys {α : Type} {l : List (Nat × α)}
    (hnd : (l.map Prod.fst).Nodup) {p : Nat × α} (hp : p ∈ l) :
    l.lookup p.1 = some p.2 := by
  induction l with
  | nil => simp at hp
  | cons q t ih =>
    rcases List.mem_cons.mp hp with h | h
    · subst h
      rw [List.lookup]
      simp
    · have hq : p.1 ≠ q.1 := by
        intro hEq
        have hnotin : q.1 ∉ t.map Prod.fst :=
          (List.nodup_cons.mp (by simpa using hnd)).1
        exact hnotin (hEq ▸ List.mem_map_of_mem Prod.fst h)
      rw [List.lookup]
      have hbeq : (p.1 == q.1) = false := by simpa using hq
      rw [hbeq]
      simp only
      exact ih (List.nodup_cons.mp (by simpa using hnd)).2 h

theorem contains_filter (r : List Nat) (P : Nat → Bool) (a : Nat) :
    (r.filter P).contains a = (P a && r.contains a) := by
  cases h2 : P a <;> by_cases h1 : a ∈ r <;>
    simp [List.elem_iff, List.mem_filter, h1, h2]

theorem countP_erase_mem {α : Type} [BEq α] [LawfulBEq α] (p : α → Bool)
    (l : List α) (a : α) (ha : a ∈ l) :
    (l.erase a).countP p = l.countP p - (if p a then 1 else 0) := by
  induction l with
  | nil => simp at ha
  | cons b t ih =>
    rw [List.erase_cons]
    cases hba : b == a with
    | true =>
      have hba2 : b = a := eq_of_beq hba
      subst hba2
      rw [if_pos rfl, List.countP_cons]
      cases hp : p b <;> simp [hp]
    | false =>
      have hbne : b ≠ a := ne_of_beq_false hba
      have hat : a ∈ t := by
        rcases List.mem_cons.mp ha with h | h
        · exact absurd h.symm hbne
        · exact h
      rw [if_neg (by simp [hbne]), List.countP_cons, List.countP_cons,
        ih hat]
      have hpos : (if p a then 1 else 0) ≤ t.countP p := by
        cases hp : p a
        · simp
        · simpa using List.countP_pos_iff.mpr ⟨a, hat, hp⟩
      omega

theorem lookup_busyUpdate (l : List (Nat × MTGroup)) (g0 g : Nat) (b : Bool) :
    (MTState.busyUpdate l g0 b).lookup g =
      if g = g0 then
        (l.lookup g).map (fun gr =>
          ⟨gr.mode, if gr.mode = GroupMode.MutuallyExclusive then b else gr.busy⟩)
      else l.lookup g := by
  induction l with
  | nil => simp [MTState.busyUpdate, List.lookup]
  | cons p t ih =>
    rw [MTState.busyUpdate, List.map]
    cases hgp : g == p.1 with
    | true =>
      have hg : g = p.1 := by simpa using hgp
      rw [List.lookup, List.lookup, hgp]
      simp only
      by_cases hp0 : p.1 = g0
      · rw [if_pos hp0, if_pos (hg.trans hp0)]
        simp
      · rw [if_neg hp0, if_neg (fun hEq => hp0 (hg ▸ hEq))]
    | false =>
      rw [List.lookup, List.lookup, hgp]
      simp only
      rw [MTState.busyUpdate] at ih
      exact ih

end Rclcpp

namespace Rclcpp

theorem mtInv_step {s s2 : MTState} (hstep : MTStep s s2) (hinv : MTInv s) :
    MTInv s2 := by
  cases hstep with
  | collect e g0 hr ho =>
    exact fun g gr hg hm => hinv g gr hg hm
  | dispatch e g0 hc =>
    intro g gr2 hg hm
    have hg2 : (if g = g0 then
        (s.groups.lookup g).map (fun gr =>
          ⟨gr.mode, if gr.mode = GroupMode.MutuallyExclusive then true else gr.busy⟩)
        else s.groups.lookup g) = some gr2 := by
      rw [← lookup_busyUpdate]
      exact hg
    have hrc : (s.dispatchState e g0).runCount g =
        s.runCount g + (if ((e, g0).2 == g) then 1 else 0) := by
      simp [MTState.runCount, MTState.dispatchState, List.countP_append,
        List.countP_cons]
    by_cases hgg : g = g0
    · subst hgg
      rw [if_pos rfl] at hg2
      cases hl : s.groups.lookup g with
      | none => rw [hl] at hg2; simp at hg2
      | some gr =>
        rw [hl] at hg2
        have hmode : gr.mode = GroupMode.MutuallyExclusive :=
          (congrArg MTGroup.mode (Option.some.inj hg2)).trans hm
        have hbusy : gr.busy = false := by
          simp [MTState.canDispatch, hl, hmode] at hc
          exact hc.2
        have h0 : s.runCount g = 0 := (hinv g gr hl hmode).2 hbusy
        constructor
        · rw [hrc, h0]
          simp
        · intro hb2
          exfalso
          have hbt : gr2.busy = true := by
            have := congrArg MTGroup.busy (Option.some.inj hg2)
            simpa [hmode] using this.symm
          rw [hb2] at hbt
          exact Bool.false_ne_true hbt
    · rw [if_neg hgg] at hg2
      have hrc2 : (s.dispatchState e g0).runCount g = s.runCount g := by
        rw [hrc]
        have hbne : ((e, g0).2 == g) = false := by
          simpa using fun h => hgg h.symm
        rw [hbne]
        simp
      rw [hrc2]
      exact hinv g gr2 hg2 hm
  | finish e g0 hr =>
    intro g gr2 hg hm
    have hg2 : (if g = g0 then
        (s.groups.lookup g).map (fun gr =>
          ⟨gr.mode, if gr.mode = GroupMode.MutuallyExclusive then false else gr.busy⟩)
        else s.groups.lookup g) = some gr2 := by
      rw [← lookup_busyUpdate]
      exact hg
    have hrc : (s.finishState e g0).runCount g =
        s.runCount g - (if ((e, g0).2 == g) then 1 else 0) := by
      simp only [MTState.runCount, MTState.finishState]
      exact countP_erase_mem _ s.running (e, g0) hr
    by_cases hgg : g = g0
    · subst hgg
      rw [if_pos rfl] at hg2
      cases hl : s.groups.lookup g with
      | none => rw [hl] at hg2; simp at hg2
      | some gr =>
        rw [hl] at hg2
        have hmode : gr.mode = GroupMode.MutuallyExclusive :=
          (congrArg MTGroup.mode (Option.some.inj hg2)).trans hm
        have hle : s.runCount g ≤ 1 := (hinv g gr hl hmode).1
        have hone : 1 ≤ s.runCount g := by
          have h1 : (fun p => p.2 == g) (e, g) = true := by simp
          have hcount : 0 < List.countP (fun p => p.2 == g) s.running :=
            List.countP_pos_iff.mpr ⟨(e, g), hr, h1⟩
          simpa [MTState.runCount] using hcount
        have hz : (s.finishState e g).runCount g = 0 := by
          rw [hrc]
          simp
          omega
        constructor
        · omega
        · intro _
          exact hz
    · rw [if_neg hgg] at hg2
      have hrc2 : (s.finishState e g0).runCount g = s.runCount g := by
        rw [hrc]
        have hbne : ((e, g0).2 == g) = false := by
          simpa using fun h => hgg h.symm
        rw [hbne]
        simp
      rw [hrc2]
      exact hinv g gr2 hg2 hm

theorem mtInv_reach {s0 s : MTState} (h0 : s0.initOk = true)
    (hre : MTReach s0 s) : MTInv s := by
  induction hre with
  | refl =>
    intro g gr hg hm
    have hrun : s0.running = [] := by
      simp [MTState.initOk, List.isEmpty_iff] at h0
      exact h0.1.1
    constructor
    · simp [MTState.runCount, hrun]
    · intro _
      simp [MTState.runCount, hrun]
  | tail hsteps hstep ih =>
    exact mtInv_step hstep ih

end Rclcpp

namespace Rclcpp

/-- C7: in every execution of the modelled dispatch loop starting from a
valid initial state, a MutuallyExclusive group has at most one member
executing at any time, and none while its busy flag is clear; while the flag
is set, the wait-set builder does not offer the members of the group, and no
collected ready item of the group can be dispatched until the running one
completes. -/
theorem C7_me_group_serialization (s0 s : MTState) (g e : Nat) (gr : MTGroup)
    (h0 : s0.initOk = true) (hre : MTReach s0 s)
    (hg : s.groups.lookup g = some gr)
    (hme : gr.mode = GroupMode.MutuallyExclusive) :
    s.runCount g ≤ 1 ∧ (gr.busy = false → s.runCount g = 0) ∧
    (gr.busy = true → s.offeredMT g = false ∧ s.canDispatch e g = false) := by
  have hinv := mtInv_reach h0 hre g gr hg hme
  refine ⟨hinv.1, hinv.2, ?_⟩
  intro hb
  constructor
  · simp [MTState.offeredMT, hg, hme, hb]
  · simp [MTState.canDispatch, hg, hme, hb]

/-- Witness for C7: from the concrete initial state c7s0, collecting and
then dispatching entity 10 reaches c7s2, whose group 1 is busy. -/
theorem C7_witness :
    c7s2.runCount 1 ≤ 1 ∧
    ((⟨GroupMode.MutuallyExclusive, true⟩ : MTGroup).busy = false →
      c7s2.runCount 1 = 0) ∧
    ((⟨GroupMode.MutuallyExclusive, true⟩ : MTGroup).busy = true →
      c7s2.offeredMT 1 = false ∧ c7s2.canDispatch 11 1 = false) :=
  C7_me_group_serialization c7s0 c7s2 1 11 ⟨GroupMode.MutuallyExclusive, true⟩
    (by decide)
    (Relation.ReflTransGen.tail
      (Relation.ReflTransGen.tail Relation.ReflTransGen.refl
        (MTStep.collect c7s0 10 1 (by decide) (by decide)))
      (MTStep.dispatch c7s1 10 1 (by decide)))
    (by decide) rfl

end Rclcpp

namespace Rclcpp

theorem mem_cycleDispatch {s : ExecModel} {x : Nat} :
    x ∈ s.cycleDispatch ↔ ∃ p ∈ s.groups, x ∈ p.2.selection s.ready := by
  simp only [ExecModel.cycleDispatch, List.mem_flatten, List.mem_map]
  constructor
  · rintro ⟨l, ⟨p, hp, rfl⟩, hx⟩
    exact ⟨p, hp, hx⟩
  · rintro ⟨p, hp, hx⟩
    exact ⟨p.2.selection s.ready, ⟨p, hp, rfl⟩, hx⟩

theorem selection_subset {gs : GroupState} {r : List Nat} {x : Nat}
    (hx : x ∈ gs.selection r) : x ∈ gs.members := by
  have hsub : ∀ y ∈ gs.readyMembers r, y ∈ gs.members := by
    intro y hy
    exact (List.mem_filter.mp hy).1
  rw [GroupState.selection] at hx
  split at hx
  · exact hsub x hx
  · split at hx
    · simp at hx
    · exact hsub x ((List.take_sublist 1 (gs.readyMembers r)).subset hx)

theorem readyMembers_filter (gs : GroupState) (r : List Nat) (P : Nat → Bool) :
    gs.readyMembers (r.filter P) = (gs.readyMembers r).filter P := by
  rw [GroupState.readyMembers, GroupState.readyMembers, List.filter_filter]
  apply List.filter_congr
  intro a _
  rw [contains_filter]

end Rclcpp

namespace Rclcpp

/-- C8: in a cycle where a MutuallyExclusive group that is not busy has
ready members e1, e2, rest (in registration order, e1 the oldest), the loop
dispatches exactly e1 for that group, every deferred member is still ready
after the cycle (none dropped), and the next cycle dispatches exactly e2
first.  Entities are assumed registered under a single group and group ids
unambiguous. -/
theorem C8_me_fifo_defer (s : ExecModel) (g : Nat) (gs : GroupState)
    (e1 e2 : Nat) (rest : List Nat)
    (hkeys : (s.groups.map Prod.fst).Nodup)
    (hk : s.groups.lookup g = some gs)
    (hm : gs.mode = GroupMode.MutuallyExclusive)
    (hb : gs.busy = false)
    (hr : gs.readyMembers s.ready = e1 :: e2 :: rest)
    (hnd : (e1 :: e2 :: rest).Nodup)
    (hdisj : ∀ p ∈ s.groups, p.1 ≠ g → ∀ x ∈ e2 :: rest, x ∉ p.2.members) :
    s.dispatchFor g = [e1] ∧
    gs.readyMembers (s.cycle).ready = e2 :: rest ∧
    (s.cycle).dispatchFor g = [e2] := by
  have hsel : gs.selection s.ready = [e1] := by
    simp +decide [GroupState.selection, hm, hb, hr]
  have h1 : s.dispatchFor g = [e1] := by
    simp [ExecModel.dispatchFor, hk, hsel]
  have hD1 : e1 ∈ s.cycleDispatch :=
    mem_cycleDispatch.mpr ⟨(g, gs), lookup_mem hk, by simp [hsel]⟩
  have hDx : ∀ x ∈ e2 :: rest, x ∉ s.cycleDispatch := by
    intro x hx hmem
    obtain ⟨p, hp, hxp⟩ := mem_cycleDispatch.mp hmem
    by_cases hpg : p.1 = g
    · have hlk := lookup_of_mem_nodupKeys hkeys hp
      rw [hpg, hk] at hlk
      have hp2 : p.2 = gs := (Option.some.inj hlk).symm
      rw [hp2, hsel] at hxp
      have hxe1 : x = e1 := by simpa using hxp
      have he1notin : e1 ∉ e2 :: rest := (List.nodup_cons.mp hnd).1
      exact he1notin (hxe1 ▸ hx)
    · exact hdisj p hp hpg x hx (selection_subset hxp)
  have h2 : gs.readyMembers (s.cycle).ready = e2 :: rest := by
    rw [show (s.cycle).ready =
        s.ready.filter (fun e => !(s.cycleDispatch.contains e)) from rfl,
      readyMembers_filter, hr, List.filter_cons]
    have he1 : (!(s.cycleDispatch.contains e1)) = false := by
      simp [List.elem_iff, hD1]
    rw [he1, if_neg (by simp)]
    exact List.filter_eq_self.mpr
      (fun x hx => by simp [List.elem_iff, hDx x hx])
  have hlk2 : (s.cycle).groups.lookup g = some gs := hk
  have h3 : (s.cycle).dispatchFor g = [e2] := by
    simp +decide [ExecModel.dispatchFor, hlk2, GroupState.selection, hm, hb, h2]
  exact ⟨h1, h2, h3⟩

/-- Witness for C8 on the concrete two-member model c8s: entity 10
(registered first) is dispatched in cycle 1, entity 20 stays ready and is
dispatched first in cycle 2. -/
theorem C8_witness :
    c8s.dispatchFor 1 = [10] ∧
    (⟨GroupMode.MutuallyExclusive, false, [10, 20]⟩ : GroupState).readyMembers
      (c8s.cycle).ready = [20] ∧
    (c8s.cycle).dispatchFor 1 = [20] :=
  C8_me_fifo_defer c8s 1 ⟨GroupMode.MutuallyExclusive, false, [10, 20]⟩ 10 20 []
    (by decide) (by decide) rfl rfl (by decide) (by decide) (by decide)

end Rclcpp
